import Mathlib

/-!
Shallow embedding of the ADC uclass core (drivers/adc/adc-uclass.c):
channel validation, supply enabling, the busy-polling read loops, the
single-shot fallback engine for multi-channel reads, and the supply
voltage resolvers.  C functions returning an errno code together with
out-parameters are embedded as Lean functions returning the code paired
with the written values; functions whose invocation pattern matters
additionally return a trace of the external calls they performed.
-/

namespace Adc

/-- Linux errno value used by the source as `-EINVAL`. -/
def EINVAL : Int := 22

/-- Linux errno value used by the source as `-EBUSY`. -/
def EBUSY : Int := 16

/-- Linux errno value used by the source as `-ENOSYS`. -/
def ENOSYS : Int := 38

/-- Linux errno value used by the source as `-ENODATA`. -/
def ENODATA : Int := 61

/-- A supply regulator, abstracted to the two capabilities the core
invokes on it: `regulator_set_enable(reg, true)` and
`regulator_get_value(reg)`.  Each is modelled by its return code
(`get_value_ret` is the microvolt value when nonnegative, an error when
negative). -/
structure Regulator where
  set_enable_ret : Int
  get_value_ret : Int

/-- `struct adc_uclass_platdata`: the per-device descriptor fields the
core reads and writes. -/
structure AdcUclassPlatdata where
  channel_mask : Nat
  data_mask : Nat
  data_timeout_us : Nat
  multidata_timeout_us : Nat
  vdd_supply : Option Regulator
  vss_supply : Option Regulator
  vdd_microvolts : Int
  vss_microvolts : Int
  vdd_polarity_negative : Bool
  vss_polarity_negative : Bool

/-- `struct adc_ops`: the driver capability table.  An absent function
pointer is `none`.  `channel_data` and `channels_data` receive the
zero-based index of the invocation (the poll attempt) so that a stateful
driver whose answer changes between retries can be modelled; they return
the errno code together with the data they would store through the out
pointer. -/
structure AdcOps where
  stop : Option Int
  start_channel : Option (Nat → Int)
  start_channels : Option (Nat → Int)
  channel_data : Option (Nat → Nat → Int × Nat)
  channels_data : Option (Nat → Nat → Int × List (Nat × Nat))

/-- A device as seen by the uclass code: its uclass platdata, its driver
ops, and the result of `device_get_supply_regulator` for the two supply
phandles (an errno code when the lookup fails). -/
structure Device where
  uc_pdata : AdcUclassPlatdata
  ops : AdcOps
  vdd_supply_lookup : Except Int Regulator
  vss_supply_lookup : Except Int Regulator

/-- External calls whose occurrence the claims talk about. -/
inductive Event where
  | enable_vdd : Event
  | enable_vss : Event
  | drv_start_channel (channel : Nat) : Event
  | drv_channel_data (channel : Nat) (attempt : Nat) : Event
deriving DecidableEq, Repr

/-- Number of driver read invocations recorded in a trace. -/
def readCount (tr : List Event) : Nat :=
  (tr.filter fun e =>
    match e with
    | Event.drv_channel_data _ _ => true
    | _ => false).length

/-- `check_channel`: with `number_or_mask = true` (`CHECK_NUMBER`) the
request is a channel index converted to the mask `1 << value`; otherwise
the request is already a mask.  The request is accepted iff
`channel_mask >= mask && (channel_mask & mask)`. -/
def check_channel (dev : Device) (value : Nat) (number_or_mask : Bool) : Int :=
  let mask : Nat := if number_or_mask then 2 ^ value else value
  if mask ≤ dev.uc_pdata.channel_mask ∧ dev.uc_pdata.channel_mask &&& mask ≠ 0 then 0
  else -EINVAL

/-- `adc_supply_enable`: enable the vdd supply when configured; then,
only when that did not fail, enable the vss supply when configured.
Returns the last return code and the trace of enable calls made. -/
def adc_supply_enable (dev : Device) : Int × List Event :=
  let step1 : Int × List Event :=
    match dev.uc_pdata.vdd_supply with
    | some r => (r.set_enable_ret, [Event.enable_vdd])
    | none => (0, [])
  match dev.uc_pdata.vss_supply with
  | some r =>
      if step1.1 = 0 then (r.set_enable_ret, step1.2 ++ [Event.enable_vss])
      else step1
  | none => step1

/-- `adc_start_channel`: require the `start_channel` capability, validate
the channel, enable supplies, then invoke the driver start. -/
def adc_start_channel (dev : Device) (channel : Nat) : Int × List Event :=
  match dev.ops.start_channel with
  | none => (-ENOSYS, [])
  | some start =>
      let ret := check_channel dev channel true
      if ret ≠ 0 then (ret, [])
      else
        let en := adc_supply_enable dev
        if en.1 ≠ 0 then en
        else (start channel, en.2 ++ [Event.drv_start_channel channel])

/-- `adc_start_channels`: require the `start_channels` capability,
validate the mask, enable supplies, then invoke the driver start. -/
def adc_start_channels (dev : Device) (channel_mask : Nat) : Int × List Event :=
  match dev.ops.start_channels with
  | none => (-ENOSYS, [])
  | some start =>
      let ret := check_channel dev channel_mask false
      if ret ≠ 0 then (ret, [])
      else
        let en := adc_supply_enable dev
        if en.1 ≠ 0 then en
        else (start channel_mask, en.2)

/-- The `do { ret = ops->channel_data(...); if (!ret || ret != -EBUSY)
break; sdelay(5); } while (timeout_us--);` loop of `adc_channel_data`.
`attempt` is the zero-based index of the current invocation and
`timeout` the remaining budget tested (and post-decremented) by the
`while` condition.  Returns the final `ret`, the data of the last
invocation, and the trace of read invocations. -/
def adc_channel_data_loop (read : Nat → Nat → Int × Nat) (channel : Nat)
    (attempt : Nat) (timeout : Nat) : Int × Nat × List Event :=
  let r := read channel attempt
  if r.1 = 0 ∨ r.1 ≠ -EBUSY then (r.1, r.2, [Event.drv_channel_data channel attempt])
  else
    match timeout with
    | 0 => (r.1, r.2, [Event.drv_channel_data channel attempt])
    | t + 1 =>
        let rest := adc_channel_data_loop read channel (attempt + 1) t
        (rest.1, rest.2.1, Event.drv_channel_data channel attempt :: rest.2.2)

/-- `adc_channel_data`: require the `channel_data` capability, validate
the channel, then poll with budget `data_timeout_us`. -/
def adc_channel_data (dev : Device) (channel : Nat) : Int × Nat × List Event :=
  match dev.ops.channel_data with
  | none => (-ENOSYS, 0, [])
  | some read =>
      let ret := check_channel dev channel true
      if ret ≠ 0 then (ret, 0, [])
      else adc_channel_data_loop read channel 0 dev.uc_pdata.data_timeout_us

/-- The polling loop of `adc_channels_data`, same protocol as the
single-channel loop. -/
def adc_channels_data_loop (read : Nat → Nat → Int × List (Nat × Nat))
    (channel_mask : Nat) (attempt : Nat) (timeout : Nat) : Int × List (Nat × Nat) :=
  let r := read channel_mask attempt
  if r.1 = 0 ∨ r.1 ≠ -EBUSY then r
  else
    match timeout with
    | 0 => r
    | t + 1 => adc_channels_data_loop read channel_mask (attempt + 1) t

/-- `adc_channels_data`: require the `channels_data` capability, validate
the mask, then poll with budget `multidata_timeout_us`. -/
def adc_channels_data (dev : Device) (channel_mask : Nat) : Int × List (Nat × Nat) :=
  match dev.ops.channels_data with
  | none => (-ENOSYS, [])
  | some read =>
      let ret := check_channel dev channel_mask false
      if ret ≠ 0 then (ret, [])
      else adc_channels_data_loop read channel_mask 0 dev.uc_pdata.multidata_timeout_us

/-- One iteration body of the fallback engine for a selected channel:
`adc_start_channel` followed by `adc_channel_data`, failing with the
first nonzero return code and otherwise yielding the sample. -/
def single_cycle (dev : Device) (channel : Nat) : Except Int Nat :=
  let st := adc_start_channel dev channel
  if st.1 ≠ 0 then Except.error st.1
  else
    let rd := adc_channel_data dev channel
    if rd.1 ≠ 0 then Except.error rd.1
    else Except.ok rd.2.1

/-- The `for (channel = 0; channel <= ADC_MAX_CHANNEL; channel++)` loop
of `_adc_channels_single_shot`, with `remaining` iterations left and
`channel` the current index: skip channels whose bit is clear in the
mask, run the start-then-read cycle on the others, abort on the first
failure, and append `(channel, data)` records in loop order. -/
def _adc_channels_single_shot_go (dev : Device) (channel_mask : Nat)
    (channel : Nat) (remaining : Nat) : Except Int (List (Nat × Nat)) :=
  match remaining with
  | 0 => Except.ok []
  | r + 1 =>
      if (channel_mask >>> channel) &&& 1 = 0 then
        _adc_channels_single_shot_go dev channel_mask (channel + 1) r
      else
        match single_cycle dev channel with
        | Except.error e => Except.error e
        | Except.ok d =>
            match _adc_channels_single_shot_go dev channel_mask (channel + 1) r with
            | Except.error e => Except.error e
            | Except.ok rest => Except.ok ((channel, d) :: rest)

/-- `_adc_channels_single_shot`, the fallback multi-shot engine.
`max_channel` stands for `ADC_MAX_CHANNEL`, a constant from a header not
in this tree; the loop runs over channels `0 .. max_channel`
inclusive. -/
def _adc_channels_single_shot (dev : Device) (max_channel : Nat)
    (channel_mask : Nat) : Except Int (List (Nat × Nat)) :=
  _adc_channels_single_shot_go dev channel_mask 0 (max_channel + 1)

/-- `adc_vdd_platdata_update`: refetch the vdd supply regulator, query
its value, and on success memoize it into `vdd_microvolts`.  Returns the
code and the updated platdata. -/
def adc_vdd_platdata_update (dev : Device) : Int × AdcUclassPlatdata :=
  match dev.vdd_supply_lookup with
  | Except.error e => (e, dev.uc_pdata)
  | Except.ok reg =>
      let p := { dev.uc_pdata with vdd_supply := some reg }
      if reg.get_value_ret < 0 then (reg.get_value_ret, p)
      else (0, { p with vdd_microvolts := reg.get_value_ret })

/-- `adc_vdd_value`: resolve the vdd voltage.  When a supply is
configured, first run `adc_vdd_platdata_update`; in either case fail
with `-ENODATA` when the (possibly updated) cached value is the
`-ENODATA` sentinel, and otherwise write the cached value multiplied by
the polarity sign.  Returns the code, the value written through `uV`
(when written), and the platdata after the call. -/
def adc_vdd_value (dev : Device) : Int × Option Int × AdcUclassPlatdata :=
  let value_sign : Int := if dev.uc_pdata.vdd_polarity_negative then -1 else 1
  match dev.uc_pdata.vdd_supply with
  | some _ =>
      let upd := adc_vdd_platdata_update dev
      if upd.1 ≠ 0 then (upd.1, none, upd.2)
      else if upd.2.vdd_microvolts = -ENODATA then (-ENODATA, none, upd.2)
      else (0, some (upd.2.vdd_microvolts * value_sign), upd.2)
  | none =>
      if dev.uc_pdata.vdd_microvolts = -ENODATA then (-ENODATA, none, dev.uc_pdata)
      else (0, some (dev.uc_pdata.vdd_microvolts * value_sign), dev.uc_pdata)

/-! Concrete devices used to exhibit witnesses and counterexamples. -/

/-- A driver implementing every capability; a read of channel `c`
instantly yields the sample `100 + c`. -/
def trivOps : AdcOps where
  stop := some 0
  start_channel := some fun _ => 0
  start_channels := some fun _ => 0
  channel_data := some fun c _ => (0, 100 + c)
  channels_data := some fun _ _ => (0, [])

/-- Platdata with channel mask `0b1010`, no supplies, zero timeout
budgets, and unresolved (sentinel) cached voltages. -/
def pdataA : AdcUclassPlatdata where
  channel_mask := 10
  data_mask := 65535
  data_timeout_us := 0
  multidata_timeout_us := 0
  vdd_supply := none
  vss_supply := none
  vdd_microvolts := -ENODATA
  vss_microvolts := -ENODATA
  vdd_polarity_negative := false
  vss_polarity_negative := false

/-- Device with mask `0b1010`, a fully working driver and no supplies. -/
def devA : Device where
  uc_pdata := pdataA
  ops := trivOps
  vdd_supply_lookup := Except.error (-2)
  vss_supply_lookup := Except.error (-2)

/-- Device whose driver reports busy on every read, with read budget 2. -/
def devBusy : Device where
  uc_pdata := { pdataA with data_timeout_us := 2 }
  ops := { trivOps with channel_data := some fun _ _ => (-EBUSY, 0) }
  vdd_supply_lookup := Except.error (-2)
  vss_supply_lookup := Except.error (-2)

/-- A read capability that is busy on attempts 0 and 1 and succeeds with
sample 777 from attempt 2 on. -/
def flakyRead : Nat → Nat → Int × Nat :=
  fun _ a => if a < 2 then (-EBUSY, 0) else (0, 777)

/-- Device whose driver is busy twice before succeeding, budget 5. -/
def devFlaky : Device where
  uc_pdata := { pdataA with data_timeout_us := 5 }
  ops := { trivOps with channel_data := some flakyRead }
  vdd_supply_lookup := Except.error (-2)
  vss_supply_lookup := Except.error (-2)

/-- A regulator whose enable call fails with code −5. -/
def regEnableFail : Regulator where
  set_enable_ret := -5
  get_value_ret := 3300

/-- A regulator whose enable call succeeds and which reports 1200 µV. -/
def regEnableOk : Regulator where
  set_enable_ret := 0
  get_value_ret := 1200

/-- Device with both supplies configured whose vdd enable fails. -/
def devVddFail : Device where
  uc_pdata := { pdataA with
    vdd_supply := some regEnableFail
    vss_supply := some regEnableOk }
  ops := trivOps
  vdd_supply_lookup := Except.error (-2)
  vss_supply_lookup := Except.error (-2)

/-- Device whose driver start fails with code −5 on channel 3 only. -/
def devStartFail3 : Device where
  uc_pdata := pdataA
  ops := { trivOps with start_channel := some fun c => if c = 3 then -5 else 0 }
  vdd_supply_lookup := Except.error (-2)
  vss_supply_lookup := Except.error (-2)

/-- Device with no vdd supply, a static 1800 µV value and negative
polarity. -/
def devStatic : Device where
  uc_pdata := { pdataA with
    vdd_microvolts := 1800
    vdd_polarity_negative := true }
  ops := trivOps
  vdd_supply_lookup := Except.error (-2)
  vss_supply_lookup := Except.error (-2)

/-- A regulator reporting 3300 µV with a working enable call. -/
def reg3300 : Regulator where
  set_enable_ret := 0
  get_value_ret := 3300

/-- Device with a configured vdd supply reporting 3300 µV. -/
def devLive : Device where
  uc_pdata := { pdataA with vdd_supply := some reg3300 }
  ops := trivOps
  vdd_supply_lookup := Except.ok reg3300
  vss_supply_lookup := Except.error (-2)

/-! Helper lemmas shared by the claim theorems. -/

/-- Unfolding of the mask-shaped channel check. -/
theorem check_channel_mask_eq (dev : Device) (R : Nat) :
    check_channel dev R false =
      if R ≤ dev.uc_pdata.channel_mask ∧ dev.uc_pdata.channel_mask &&& R ≠ 0 then 0
      else -EINVAL := rfl

/-- Unfolding of the number-shaped channel check. -/
theorem check_channel_number_eq (dev : Device) (c : Nat) :
    check_channel dev c true =
      if 2 ^ c ≤ dev.uc_pdata.channel_mask ∧ dev.uc_pdata.channel_mask &&& 2 ^ c ≠ 0 then 0
      else -EINVAL := rfl

/-- A bitwise conjunction is nonzero exactly when the operands share a
set bit. -/
theorem and_ne_zero_iff_shared_bit (m r : Nat) :
    m &&& r ≠ 0 ↔ ∃ i, r.testBit i = true ∧ m.testBit i = true := by
  constructor
  · intro h
    obtain ⟨i, hi⟩ := Nat.ne_zero_implies_bit_true h
    rw [Nat.testBit_and] at hi
    obtain ⟨hm, hr⟩ := Bool.and_eq_true_iff.mp hi
    exact ⟨i, hr, hm⟩
  · rintro ⟨i, hr, hm⟩ h0
    have hbit := congrArg (fun n => Nat.testBit n i) h0
    simp only [Nat.testBit_and, hm, hr, Bool.and_self, Nat.zero_testBit] at hbit
    exact Bool.noConfusion hbit

/-- Reads are counted one per `drv_channel_data` event. -/
theorem readCount_cons_read (c a : Nat) (tr : List Event) :
    readCount (Event.drv_channel_data c a :: tr) = readCount tr + 1 := by
  simp [readCount]

/-- C1, as stated, is false: with channel mask `0b1010` the mask request
`0b0011` is accepted by `check_channel` even though it is not a bit
subset of the mask (`0b0011 &&& 0b1010 = 0b0010 ≠ 0b0011`). -/
theorem check_channel_mask_not_subset :
    check_channel devA 3 false = 0 ∧ 3 &&& devA.uc_pdata.channel_mask ≠ 3 := by
  exact ⟨rfl, by decide⟩

/-- C1 (amended): the mask-shaped channel check succeeds iff the
requested mask is numerically at most the device channel mask and shares
at least one set bit with it. -/
theorem check_channel_mask_iff (dev : Device) (R : Nat) :
    check_channel dev R false = 0 ↔
      R ≤ dev.uc_pdata.channel_mask ∧
        ∃ i, R.testBit i = true ∧ dev.uc_pdata.channel_mask.testBit i = true := by
  rw [check_channel_mask_eq]
  split
  · rename_i h
    exact iff_of_true rfl ⟨h.1, (and_ne_zero_iff_shared_bit _ _).mp h.2⟩
  · rename_i h
    exact iff_of_false (by decide) fun hc =>
      h ⟨hc.1, (and_ne_zero_iff_shared_bit _ _).mpr hc.2⟩

/-- C2: for a device mask fitting 32 bits and a channel index below 32
(the domain on which the C shift is defined), the number-shaped channel
check succeeds iff the channel's bit is set in the device mask. -/
theorem check_channel_number_iff (dev : Device) (c : Nat)
    (_hc : c < 32) (_hM : dev.uc_pdata.channel_mask < 2 ^ 32) :
    check_channel dev c true = 0 ↔ dev.uc_pdata.channel_mask.testBit c = true := by
  rw [check_channel_number_eq]
  split
  · rename_i h
    refine iff_of_true rfl ?_
    have h2 := h.2
    rw [Nat.and_two_pow] at h2
    cases hb : dev.uc_pdata.channel_mask.testBit c with
    | false => rw [hb] at h2; simp at h2
    | true => rfl
  · rename_i h
    refine iff_of_false (by decide) fun hb => h ⟨Nat.testBit_implies_ge hb, ?_⟩
    rw [Nat.and_two_pow, hb]
    have hp : 0 < 2 ^ c := Nat.pow_pos (by norm_num)
    simp [hp.ne']

/-- C2 witness: mask `0b1010`, channel 1 is accepted. -/
theorem check_channel_number_iff_witness :
    check_channel devA 1 true = 0 :=
  (check_channel_number_iff devA 1 (by decide) (by decide)).mpr (by decide)

/-- C10: the empty request mask is rejected with `-EINVAL` by the
validator, for every device mask, and hence by `adc_start_channels` and
`adc_channels_data` whenever the respective driver capability is
present. -/
theorem empty_mask_rejected (dev : Device) (f : Nat → Int)
    (g : Nat → Nat → Int × List (Nat × Nat))
    (h1 : dev.ops.start_channels = some f)
    (h2 : dev.ops.channels_data = some g) :
    check_channel dev 0 false = -EINVAL ∧
    (adc_start_channels dev 0).1 = -EINVAL ∧
    (adc_channels_data dev 0).1 = -EINVAL := by
  have hchk : check_channel dev 0 false = -EINVAL := by
    rw [check_channel_mask_eq, if_neg]
    intro hcon
    exact hcon.2 (Nat.and_zero _)
  refine ⟨hchk, ?_, ?_⟩
  · simp only [adc_start_channels, h1, hchk]
    rw [if_pos (by decide)]
  · simp only [adc_channels_data, h2, hchk]
    rw [if_pos (by decide)]

/-- C10 witness: the empty mask is rejected on a device with mask
`0b1010` and a driver implementing both multi-channel capabilities. -/
theorem empty_mask_rejected_witness :
    check_channel devA 0 false = -EINVAL ∧
    (adc_start_channels devA 0).1 = -EINVAL ∧
    (adc_channels_data devA 0).1 = -EINVAL :=
  empty_mask_rejected devA (fun _ => 0) (fun _ _ => (0, [])) rfl rfl

/-- One-step unfolding of the polling loop. -/
theorem adc_channel_data_loop_eq (f : Nat → Nat → Int × Nat) (c a t : Nat) :
    adc_channel_data_loop f c a t =
      if (f c a).1 = 0 ∨ (f c a).1 ≠ -EBUSY then
        ((f c a).1, (f c a).2, [Event.drv_channel_data c a])
      else
        match t with
        | 0 => ((f c a).1, (f c a).2, [Event.drv_channel_data c a])
        | t' + 1 =>
            ((adc_channel_data_loop f c (a + 1) t').1,
             (adc_channel_data_loop f c (a + 1) t').2.1,
             Event.drv_channel_data c a :: (adc_channel_data_loop f c (a + 1) t').2.2) := by
  cases t <;> rfl

/-- The polling loop under an always-busy read capability finishes busy
after exactly `t + 1` reads. -/
theorem adc_channel_data_loop_busy (f : Nat → Nat → Int × Nat) (c : Nat)
    (hbusy : ∀ ch a, (f ch a).1 = -EBUSY) :
    ∀ t a, (adc_channel_data_loop f c a t).1 = -EBUSY ∧
      readCount (adc_channel_data_loop f c a t).2.2 = t + 1 := by
  intro t
  induction t with
  | zero =>
    intro a
    rw [adc_channel_data_loop_eq, if_neg (by rw [hbusy c a]; decide)]
    exact ⟨hbusy c a, rfl⟩
  | succ t ih =>
    intro a
    rw [adc_channel_data_loop_eq, if_neg (by rw [hbusy c a]; decide)]
    refine ⟨(ih (a + 1)).1, ?_⟩
    rw [readCount_cons_read, (ih (a + 1)).2]

/-- C3: when the driver read capability always reports busy,
`adc_channel_data` on a valid channel performs exactly
`data_timeout_us + 1` driver reads and returns `-EBUSY`. -/
theorem adc_channel_data_always_busy (dev : Device) (c : Nat)
    (f : Nat → Nat → Int × Nat)
    (hops : dev.ops.channel_data = some f)
    (hbusy : ∀ ch a, (f ch a).1 = -EBUSY)
    (hvalid : check_channel dev c true = 0) :
    (adc_channel_data dev c).1 = -EBUSY ∧
    readCount (adc_channel_data dev c).2.2 = dev.uc_pdata.data_timeout_us + 1 := by
  have hd : adc_channel_data dev c =
      adc_channel_data_loop f c 0 dev.uc_pdata.data_timeout_us := by
    simp [adc_channel_data, hops, hvalid]
  rw [hd]
  exact adc_channel_data_loop_busy f c hbusy _ 0

/-- C3 witness: an always-busy driver with budget 2 is read 3 times. -/
theorem adc_channel_data_always_busy_witness :
    (adc_channel_data devBusy 1).1 = -EBUSY ∧
    readCount (adc_channel_data devBusy 1).2.2 = devBusy.uc_pdata.data_timeout_us + 1 :=
  adc_channel_data_always_busy devBusy 1 (fun _ _ => (-EBUSY, 0)) rfl
    (fun _ _ => rfl) (by decide)

/-- The polling loop when the first non-busy read is attempt `a + j`
and the budget allows reaching it: it returns that read's status and
data after exactly `j + 1` reads. -/
theorem adc_channel_data_loop_first_stop (f : Nat → Nat → Int × Nat) (c : Nat) :
    ∀ j a t, (∀ i, i < j → (f c (a + i)).1 = -EBUSY) →
      (f c (a + j)).1 ≠ -EBUSY → j ≤ t →
      (adc_channel_data_loop f c a t).1 = (f c (a + j)).1 ∧
      (adc_channel_data_loop f c a t).2.1 = (f c (a + j)).2 ∧
      readCount (adc_channel_data_loop f c a t).2.2 = j + 1 := by
  intro j
  induction j with
  | zero =>
    intro a t _hprev hstop _ht
    rw [adc_channel_data_loop_eq, if_pos (Or.inr (by simpa using hstop))]
    exact ⟨by simp, by simp, rfl⟩
  | succ j ih =>
    intro a t hprev hstop ht
    have hbusy0 : (f c a).1 = -EBUSY := by simpa using hprev 0 (Nat.succ_pos j)
    rw [adc_channel_data_loop_eq, if_neg (by rw [hbusy0]; decide)]
    cases t with
    | zero => omega
    | succ t' =>
      have h1 : ∀ i, i < j → (f c (a + 1 + i)).1 = -EBUSY := by
        intro i hi
        have hp := hprev (i + 1) (by omega)
        rwa [show a + (i + 1) = a + 1 + i by omega] at hp
      have h2 : (f c (a + 1 + j)).1 ≠ -EBUSY := by
        rw [show a + 1 + j = a + (j + 1) by omega]
        exact hstop
      obtain ⟨r1, r2, r3⟩ := ih (a + 1) t' h1 h2 (by omega)
      refine ⟨?_, ?_, ?_⟩
      · rw [show a + (j + 1) = a + 1 + j by omega]
        exact r1
      · rw [show a + (j + 1) = a + 1 + j by omega]
        exact r2
      · rw [readCount_cons_read, r3]

/-- C4: when the driver read capability is busy on attempts `0 .. j-1`
and non-busy (success or other error) on attempt `j`, with `j` within
the budget, `adc_channel_data` performs exactly `j + 1` driver reads and
returns attempt `j`'s status and data, with no further retries. -/
theorem adc_channel_data_first_stop (dev : Device) (c : Nat)
    (f : Nat → Nat → Int × Nat) (j : Nat)
    (hops : dev.ops.channel_data = some f)
    (hvalid : check_channel dev c true = 0)
    (hbusy : ∀ i, i < j → (f c i).1 = -EBUSY)
    (hstop : (f c j).1 ≠ -EBUSY)
    (hj : j ≤ dev.uc_pdata.data_timeout_us) :
    (adc_channel_data dev c).1 = (f c j).1 ∧
    (adc_channel_data dev c).2.1 = (f c j).2 ∧
    readCount (adc_channel_data dev c).2.2 = j + 1 := by
  have hd : adc_channel_data dev c =
      adc_channel_data_loop f c 0 dev.uc_pdata.data_timeout_us := by
    simp [adc_channel_data, hops, hvalid]
  rw [hd]
  have hmain := adc_channel_data_loop_first_stop f c j 0
    dev.uc_pdata.data_timeout_us (by simpa using hbusy) (by simpa using hstop) hj
  simpa using hmain

/-- C4 witness: a driver busy on attempts 0 and 1 and successful on
attempt 2 is read exactly 3 times and yields attempt 2's sample. -/
theorem adc_channel_data_first_stop_witness :
    (adc_channel_data devFlaky 1).1 = (flakyRead 1 2).1 ∧
    (adc_channel_data devFlaky 1).2.1 = (flakyRead 1 2).2 ∧
    readCount (adc_channel_data devFlaky 1).2.2 = 2 + 1 :=
  adc_channel_data_first_stop devFlaky 1 flakyRead 2 rfl (by decide)
    (by decide) (by decide) (by decide)

/-- C5: with both supplies configured and the vdd enable failing, an
`adc_start_channel` call that reaches the supply stage (capability
present, channel valid) returns the vdd enable error, never invokes the
vss enable, and never invokes the driver's start capability. -/
theorem adc_start_channel_vdd_fail (dev : Device) (c : Nat)
    (vdd vss : Regulator) (start : Nat → Int)
    (hops : dev.ops.start_channel = some start)
    (hvalid : check_channel dev c true = 0)
    (hvdd : dev.uc_pdata.vdd_supply = some vdd)
    (hvss : dev.uc_pdata.vss_supply = some vss)
    (hfail : vdd.set_enable_ret ≠ 0) :
    (adc_start_channel dev c).1 = vdd.set_enable_ret ∧
    Event.enable_vss ∉ (adc_start_channel dev c).2 ∧
    ∀ ch, Event.drv_start_channel ch ∉ (adc_start_channel dev c).2 := by
  have hen : adc_supply_enable dev = (vdd.set_enable_ret, [Event.enable_vdd]) := by
    simp [adc_supply_enable, hvdd, hvss, hfail]
  have hsc : adc_start_channel dev c = (vdd.set_enable_ret, [Event.enable_vdd]) := by
    simp [adc_start_channel, hops, hvalid, hen, hfail]
  rw [hsc]
  exact ⟨rfl, by simp, fun ch => by simp⟩

/-- C5 witness: vdd enable failing with code −5 short-circuits the start
of channel 1 on a device with both supplies configured. -/
theorem adc_start_channel_vdd_fail_witness :
    (adc_start_channel devVddFail 1).1 = regEnableFail.set_enable_ret ∧
    Event.enable_vss ∉ (adc_start_channel devVddFail 1).2 ∧
    ∀ ch, Event.drv_start_channel ch ∉ (adc_start_channel devVddFail 1).2 :=
  adc_start_channel_vdd_fail devVddFail 1 regEnableFail regEnableOk (fun _ => 0)
    rfl (by decide) rfl rfl (by decide)

/-- The fallback loop's bit test agrees with `Nat.testBit`. -/
theorem shift_and_one_eq_testBit (mask ch : Nat) :
    (mask >>> ch) &&& 1 = (mask.testBit ch).toNat := by
  rw [Nat.and_one_is_mod, Nat.testBit_to_div_mod, Nat.shiftRight_eq_div_pow]
  rcases Nat.mod_two_eq_zero_or_one (mask / 2 ^ ch) with h | h <;> simp [h]

/-- The fallback loop skips channel `ch` exactly when its bit is clear. -/
theorem bit_clear_iff (mask ch : Nat) :
    (mask >>> ch) &&& 1 = 0 ↔ mask.testBit ch = false := by
  rw [shift_and_one_eq_testBit]
  cases h : mask.testBit ch <;> simp

/-- A successful fallback loop run starting at `ch` with `r` iterations
left returns exactly the set-bit channels of `[ch, ch + r)` in ascending
order, each paired with the sample of its own start-then-read cycle. -/
theorem fallback_go_ok (dev : Device) (mask : Nat) :
    ∀ r ch l, _adc_channels_single_shot_go dev mask ch r = Except.ok l →
      l.map Prod.fst = (List.range' ch r).filter (fun i => mask.testBit i) ∧
      ∀ p ∈ l, single_cycle dev p.1 = Except.ok p.2 := by
  intro r
  induction r with
  | zero =>
    intro ch l h
    simp only [_adc_channels_single_shot_go, Except.ok.injEq] at h
    subst h
    exact ⟨by simp, by simp⟩
  | succ r ih =>
    intro ch l h
    unfold _adc_channels_single_shot_go at h
    by_cases hbitc : (mask >>> ch) &&& 1 = 0
    · rw [if_pos hbitc] at h
      obtain ⟨hmap, hel⟩ := ih (ch + 1) l h
      have htb : mask.testBit ch = false := (bit_clear_iff mask ch).mp hbitc
      refine ⟨?_, hel⟩
      rw [List.range'_succ]
      simp [List.filter_cons, htb, hmap]
    · rw [if_neg hbitc] at h
      have htb : mask.testBit ch = true := by
        cases hcb : mask.testBit ch
        · exact absurd ((bit_clear_iff mask ch).mpr hcb) hbitc
        · rfl
      cases hcyc : single_cycle dev ch with
      | error e =>
        rw [hcyc] at h
        exact absurd h (by simp)
      | ok d =>
        rw [hcyc] at h
        cases hrest : _adc_channels_single_shot_go dev mask (ch + 1) r with
        | error e =>
          rw [hrest] at h
          exact absurd h (by simp)
        | ok rest =>
          rw [hrest] at h
          simp only [Except.ok.injEq] at h
          subst h
          obtain ⟨hmap, hel⟩ := ih (ch + 1) rest hrest
          constructor
          · rw [List.range'_succ]
            simp [List.filter_cons, htb, hmap]
          · intro p hp
            rcases List.mem_cons.mp hp with hp | hp
            · subst hp
              exact hcyc
            · exact hel p hp

/-- C6: when all set bits of the requested mask lie within the channel
range, a successful fallback run returns exactly one `(channel, sample)`
record per set bit, in strictly ascending channel order, each sample
being the one produced by that channel's start-then-read cycle. -/
theorem fallback_engine_ascending (dev : Device) (max_channel channel_mask : Nat)
    (l : List (Nat × Nat))
    (hbits : ∀ i, channel_mask.testBit i = true → i ≤ max_channel)
    (hok : _adc_channels_single_shot dev max_channel channel_mask = Except.ok l) :
    l.map Prod.fst = (List.range (max_channel + 1)).filter (fun i => channel_mask.testBit i) ∧
    (∀ i, channel_mask.testBit i = true ↔ i ∈ l.map Prod.fst) ∧
    List.Pairwise (· < ·) (l.map Prod.fst) ∧
    ∀ p ∈ l, single_cycle dev p.1 = Except.ok p.2 := by
  obtain ⟨hmap, hel⟩ := fallback_go_ok dev channel_mask (max_channel + 1) 0 l hok
  rw [← List.range_eq_range'] at hmap
  refine ⟨hmap, ?_, ?_, hel⟩
  · intro i
    rw [hmap]
    constructor
    · intro hbit
      rw [List.mem_filter]
      exact ⟨List.mem_range.mpr (Nat.lt_succ_of_le (hbits i hbit)), by simpa using hbit⟩
    · intro hmem
      have hpf := (List.mem_filter.mp hmem).2
      simpa using hpf
  · rw [hmap]
    exact List.Pairwise.filter _ (List.pairwise_lt_range _)

/-- C6 witness: mask `0b1010` over channels `0..3` on a working driver
yields `[(1, 101), (3, 103)]` in that order. -/
theorem fallback_engine_ascending_witness :
    [((1 : Nat), (101 : Nat)), (3, 103)].map Prod.fst
        = (List.range (3 + 1)).filter (fun i => Nat.testBit 10 i) ∧
    (∀ i, Nat.testBit 10 i = true ↔ i ∈ [((1 : Nat), (101 : Nat)), (3, 103)].map Prod.fst) ∧
    List.Pairwise (· < ·) ([((1 : Nat), (101 : Nat)), (3, 103)].map Prod.fst) ∧
    ∀ p ∈ [((1 : Nat), (101 : Nat)), (3, 103)], single_cycle devA p.1 = Except.ok p.2 :=
  fallback_engine_ascending devA 3 10 [(1, 101), (3, 103)]
    (fun i hi => by
      by_contra hgt
      have h16 : (16 : Nat) ≤ 2 ^ i := by
        calc (16 : Nat) = 2 ^ 4 := by norm_num
        _ ≤ 2 ^ i := Nat.pow_le_pow_right (by norm_num) (by omega)
      have h10 : 2 ^ i ≤ 10 := Nat.testBit_implies_ge hi
      omega)
    (by rfl)

/-- A fallback loop run that reaches a requested channel whose cycle
fails (all earlier requested channels succeeding) returns that
failure. -/
theorem fallback_go_error (dev : Device) (mask : Nat) (e : Int) :
    ∀ r ch j, ch ≤ j → j < ch + r → mask.testBit j = true →
      single_cycle dev j = Except.error e →
      (∀ i, ch ≤ i → i < j → mask.testBit i = true →
        ∃ d, single_cycle dev i = Except.ok d) →
      _adc_channels_single_shot_go dev mask ch r = Except.error e := by
  intro r
  induction r with
  | zero =>
    intro ch j h1 h2 _hbit _hfail _hprev
    omega
  | succ r ih =>
    intro ch j h1 h2 hbit hfail hprev
    unfold _adc_channels_single_shot_go
    rcases Nat.eq_or_lt_of_le h1 with heq | hlt
    · subst heq
      rw [if_neg (fun h0 => by
        rw [(bit_clear_iff mask ch).mp h0] at hbit
        exact Bool.noConfusion hbit)]
      rw [hfail]
    · by_cases hb : (mask >>> ch) &&& 1 = 0
      · rw [if_pos hb]
        exact ih (ch + 1) j (by omega) (by omega) hbit hfail
          (fun i hi1 hi2 hib => hprev i (by omega) hi2 hib)
      · rw [if_neg hb]
        have hbch : mask.testBit ch = true := by
          cases hcb : mask.testBit ch
          · exact absurd ((bit_clear_iff mask ch).mpr hcb) hb
          · rfl
        obtain ⟨d, hd⟩ := hprev ch (le_refl ch) hlt hbch
        rw [hd]
        rw [ih (ch + 1) j (by omega) (by omega) hbit hfail
          (fun i hi1 hi2 hib => hprev i (by omega) hi2 hib)]

/-- C7: the fallback engine is all-or-nothing: when a requested channel
within range fails its start-then-read cycle (all earlier requested
channels succeeding), the engine returns that failure and no result
list at all. -/
theorem fallback_engine_aborts (dev : Device) (max_channel channel_mask j : Nat)
    (e : Int)
    (hj : j ≤ max_channel)
    (hbit : channel_mask.testBit j = true)
    (hfail : single_cycle dev j = Except.error e)
    (hprev : ∀ i, i < j → channel_mask.testBit i = true →
      ∃ d, single_cycle dev i = Except.ok d) :
    _adc_channels_single_shot dev max_channel channel_mask = Except.error e ∧
    ∀ lres, _adc_channels_single_shot dev max_channel channel_mask ≠ Except.ok lres := by
  have hmain := fallback_go_error dev channel_mask e (max_channel + 1) 0 j
    (Nat.zero_le j) (by omega) hbit hfail (fun i _hi1 hi2 hib => hprev i hi2 hib)
  refine ⟨hmain, fun lres => ?_⟩
  rw [show _adc_channels_single_shot dev max_channel channel_mask =
    _adc_channels_single_shot_go dev channel_mask 0 (max_channel + 1) from rfl, hmain]
  simp

/-- C7 witness: over mask `0b1010` with the start of channel 3 failing
with code −5, the engine returns that failure and no partial result,
although channel 1's cycle succeeded. -/
theorem fallback_engine_aborts_witness :
    _adc_channels_single_shot devStartFail3 3 10 = Except.error (-5) ∧
    ∀ lres, _adc_channels_single_shot devStartFail3 3 10 ≠ Except.ok lres :=
  fallback_engine_aborts devStartFail3 3 10 3 (-5) (by decide) (by decide)
    (by rfl)
    (fun i hi hib => by
      interval_cases i
      · exact absurd hib (by decide)
      · exact ⟨101, by rfl⟩
      · exact absurd hib (by decide))

/-- C8: with no vdd supply configured, `adc_vdd_value` fails with
`-ENODATA` when the cached `vdd_microvolts` holds the sentinel, and
otherwise outputs the cached value multiplied by −1 exactly when the
polarity flag is set, leaving the platdata unchanged. -/
theorem adc_vdd_value_no_supply (dev : Device)
    (h : dev.uc_pdata.vdd_supply = none) :
    (dev.uc_pdata.vdd_microvolts = -ENODATA →
      adc_vdd_value dev = (-ENODATA, none, dev.uc_pdata)) ∧
    (dev.uc_pdata.vdd_microvolts ≠ -ENODATA →
      adc_vdd_value dev =
        (0, some (dev.uc_pdata.vdd_microvolts *
          (if dev.uc_pdata.vdd_polarity_negative then -1 else 1)),
         dev.uc_pdata)) := by
  constructor
  · intro hs
    simp [adc_vdd_value, h, hs]
  · intro hs
    simp [adc_vdd_value, h, hs]

/-- C8 witness: `vdd-microvolts` unset yields `-ENODATA`; a cached
1800 µV with negative polarity yields −1800. -/
theorem adc_vdd_value_no_supply_witness :
    adc_vdd_value devA = (-ENODATA, none, devA.uc_pdata) ∧
    adc_vdd_value devStatic = (0, some (-1800), devStatic.uc_pdata) := by
  constructor
  · exact (adc_vdd_value_no_supply devA rfl).1 rfl
  · exact (adc_vdd_value_no_supply devStatic rfl).2 (by decide)

/-- C9: with a configured vdd supply whose regulator refetch succeeds
and whose value query reports `v ≥ 0`, `adc_vdd_value` succeeds,
memoizes `v` into the cached `vdd_microvolts`, and outputs `v` with the
polarity sign applied. -/
theorem adc_vdd_value_supply_query (dev : Device) (r0 reg : Regulator) (v : Int)
    (hsup : dev.uc_pdata.vdd_supply = some r0)
    (hlookup : dev.vdd_supply_lookup = Except.ok reg)
    (hval : reg.get_value_ret = v)
    (hv : 0 ≤ v) :
    (adc_vdd_value dev).1 = 0 ∧
    (adc_vdd_value dev).2.1 =
      some (v * (if dev.uc_pdata.vdd_polarity_negative then -1 else 1)) ∧
    (adc_vdd_value dev).2.2.vdd_microvolts = v := by
  have hnl : ¬ v < 0 := not_lt.mpr hv
  have hupd : adc_vdd_platdata_update dev =
      (0, { dev.uc_pdata with vdd_supply := some reg, vdd_microvolts := v }) := by
    simp [adc_vdd_platdata_update, hlookup, hval, hnl]
  have hne : v ≠ -ENODATA := by
    intro hcon
    rw [hcon] at hv
    norm_num [ENODATA] at hv
  have hmain : adc_vdd_value dev =
      (0, some (v * (if dev.uc_pdata.vdd_polarity_negative then -1 else 1)),
       { dev.uc_pdata with vdd_supply := some reg, vdd_microvolts := v }) := by
    simp [adc_vdd_value, hsup, hupd, hne]
  rw [hmain]
  exact ⟨rfl, rfl, rfl⟩

/-- C9 witness: a supply reporting 3300 µV with positive polarity yields
output 3300 and cached value 3300. -/
theorem adc_vdd_value_supply_query_witness :
    (adc_vdd_value devLive).1 = 0 ∧
    (adc_vdd_value devLive).2.1 =
      some (3300 * (if devLive.uc_pdata.vdd_polarity_negative then -1 else 1)) ∧
    (adc_vdd_value devLive).2.2.vdd_microvolts = 3300 :=
  adc_vdd_value_supply_query devLive reg3300 reg3300 3300 rfl rfl rfl (by decide)

end Adc
